import Mathlib

/-!
Verification development for the EntitySelect plugin.

This file gives a shallow embedding of the selector-resolution engine of
`EntitySelector.py` (together with the parts of `Highlight.py`, `DocLink.py`
and `StatusIdentifier.py` the claims touch) and proves or refutes the frozen
claims about it.

Modelling conventions:
  * The host editor's view is a structure of pure functions (`sel`,
    `score_selector`, `scope_name`, the `is_widget` setting, the view id).
    Positions are `Int`, scores are `Int`, scope names are `String`.
  * A selector class (a subclass of `EntitySelector`) is a bundle of its
    class-level behaviours: the two scope-enabler strings and the
    `enable_for_view` / `enable_for_selection` overrides.  A truthy return
    value of `enable_for_selection` is modelled as `some kwargs`, a falsy one
    (`False`, `None`, `{}`) as `none`.
  * A selector instance is its class together with the regions stored by
    `EntitySelector.__init__` (`self.regions = view.sel()`).
  * Python exceptions are modelled with `Except PyErr`; mutation of the
    module-level state (`ViewSelectors`, `PossibleSelectors`, the two
    callback lists) is explicit state passing on `ESState`.
  * `hash(str(EntitySelector.PossibleSelectors))` is modelled by the rendered
    registry string itself: a deterministic, injective stand-in for the
    Python hash of the registry's repr, compared only for equality exactly
    as the code does.
-/

/-- A Sublime `Region(a, b)`. `begin`/`end` normalize the two endpoints. -/
structure Region where
  a : Int
  b : Int
deriving DecidableEq, Repr

def Region.begin_ (r : Region) : Int := min r.a r.b

def Region.end_ (r : Region) : Int := max r.a r.b

/-- Sublime `Region.empty()`: the region covers no characters. -/
def Region.empty (r : Region) : Bool := r.a == r.b

/-- Sublime `Region.contains(region)`: the other region is inside this one. -/
def Region.contains (r s : Region) : Bool :=
  decide (r.begin_ ≤ s.begin_) && decide (s.end_ ≤ r.end_)

/-- Sublime `Region.intersects(region)`. -/
def Region.intersects (r s : Region) : Bool :=
  decide (r.begin_ ≤ s.end_) && decide (s.begin_ ≤ r.end_)

/-- The host view: the narrow interface the engine reads from the editor. -/
structure View where
  id : Nat
  sel : List Region
  score_selector : Int → String → Int
  scope_name : Int → String
  is_widget : Bool

/-- Python exceptions that the embedded code can raise. -/
inductive PyErr where
  | indexError
  | valueError
  | typeError
deriving DecidableEq, Repr

/-- The keyword-argument dictionary returned by `enable_for_selection`. -/
abbrev Kwargs := List (String × String)

/-- A concrete `EntitySelector` subclass: its name and class-level behaviour. -/
structure SelectorClass where
  name : String
  scope_view_enabler : String
  scope_selection_enabler : String
  enable_for_view : View → Bool
  enable_for_selection : View → Option Kwargs

/-- An `EntitySelector` instance: its class and the regions stored by
`EntitySelector.__init__` (`self.regions = view.sel()`). -/
structure Selector where
  cls : SelectorClass
  regions : List Region

/-- A registered callback: an identifier and its behaviour when called with
`cls` (by name), `selector` and `view`.  A raised exception is `.error`. -/
structure Callback where
  cbId : String
  run : String → Option Selector → View → Except PyErr Unit

/-- Record of one callback invocation: which callback ran, the arguments it
received, and whether it raised (and was caught and logged). -/
structure CbCall where
  cb : String
  argClsName : String
  argSelector : Option Selector
  raised : Bool

/-- One observable step of a `match_entity` run. -/
inductive Event where
  | before (call : CbCall)
  | tried (clsName : String)
  | activated (clsName : String)
  | after (call : CbCall)

def Event.isBefore : Event → Bool
  | .before _ => true
  | _ => false

def Event.isAfter : Event → Bool
  | .after _ => true
  | _ => false

def CbCall.describe (c : CbCall) : String :=
  c.cb ++ ":" ++ c.argClsName ++ ":" ++
    (match c.argSelector with
     | none => "none"
     | some s => s.cls.name) ++
    (if c.raised then ":raised" else "")

def Event.describe : Event → String
  | .before c => "before:" ++ c.describe
  | .tried n => "tried:" ++ n
  | .activated n => "activated:" ++ n
  | .after c => "after:" ++ c.describe

/-- Association-list update, modelling Python `dict` assignment `m[k] = v`. -/
def aset {α : Type} : List (Nat × α) → Nat → α → List (Nat × α)
  | [], k, v => [(k, v)]
  | (k', v') :: rest, k, v =>
      if k' == k then (k, v) :: rest else (k', v') :: aset rest k v

/-- Association-list lookup, modelling Python `dict` access `m[k]`. -/
def alookup {α : Type} (m : List (Nat × α)) (k : Nat) : Option α :=
  (m.find? (fun p => p.1 == k)).map (fun p => p.2)

/-- Python `str.split(' ')` on the space character, by structural recursion
on the character list (kernel-computable). -/
def splitSpaceChars : List Char → List (List Char)
  | [] => [[]]
  | c :: cs =>
      if c == ' ' then [] :: splitSpaceChars cs
      else
        match splitSpaceChars cs with
        | [] => [[c]]
        | w :: ws => (c :: w) :: ws

/-- Python `s.split(' ')`. -/
def pySplitSpace (s : String) : List String :=
  (splitSpaceChars s.data).map String.mk

/-- Drop leading whitespace characters. -/
def dropLeadingWS : List Char → List Char
  | [] => []
  | c :: cs => if c.isWhitespace then dropLeadingWS cs else c :: cs

/-- Python `str.strip()`: whitespace removed from both ends. -/
def pyStrip (s : String) : String :=
  String.mk ((dropLeadingWS ((dropLeadingWS s.data.reverse).reverse)))

/-- The comma-space join used in the repr of a Python list. -/
def joinCommaSpace : List String → String
  | [] => ""
  | [x] => x
  | x :: xs => x ++ ", " ++ joinCommaSpace xs

namespace EntitySelector

/-- `EntitySelector.check_scope_for_view`: the max of the view-enabler scope
scores over all selections; `max` of an empty list raises `ValueError`, which
the code catches by scoring position 0 instead. -/
def check_scope_for_view (cls : SelectorClass) (view : View) : Int :=
  match view.sel with
  | [] => view.score_selector 0 cls.scope_view_enabler
  | s :: rest =>
      (rest.map (fun r => view.score_selector r.begin_ cls.scope_view_enabler)).foldl
        max (view.score_selector s.begin_ cls.scope_view_enabler)

/-- `EntitySelector.check_scope_for_selection`: with `check_all_regions` the
scores of every selection; otherwise a one-element list for `view.sel()[0]`,
which raises `IndexError` when the view has no selection. -/
def check_scope_for_selection (cls : SelectorClass) (view : View)
    (check_all_regions : Bool) : Except PyErr (List Int) :=
  if check_all_regions then
    Except.ok (view.sel.map (fun s => view.score_selector s.begin_ cls.scope_selection_enabler))
  else
    match view.sel with
    | [] => Except.error PyErr.indexError
    | s :: _ => Except.ok [view.score_selector s.begin_ cls.scope_selection_enabler]

end EntitySelector

/-- `ViewData.scope_from_view`: the first space-separated component of the
scope name at the first selection (position 0 when there is no selection). -/
def ViewData.scope_from_view (view : View) : String :=
  let scope :=
    match view.sel with
    | [] => view.scope_name 0
    | s :: _ => view.scope_name s.begin_
  (pySplitSpace scope).headD ""

/-- `ViewData.get_possible_selectors_hash`, i.e.
`hash(str(EntitySelector.PossibleSelectors))`: here the rendered registry
string itself serves as the fingerprint (see the header comment). -/
def ViewData.get_possible_selectors_hash (ps : List SelectorClass) : String :=
  "[" ++ joinCommaSpace (ps.map SelectorClass.name) ++ "]"

/-- The per-view record stored in `EntitySelector.ViewSelectors`. -/
structure ViewData where
  id : Nat
  scope : String
  selector : Option Selector
  possible_selectors_hash : String
  possible_selectors : List SelectorClass

/-- `ViewData.update_possible_selectors`: refresh the registry fingerprint and
recompute the applicable selectors (positive view-scope score and
`enable_for_view`). -/
def ViewData.update_possible_selectors (vd : ViewData) (ps : List SelectorClass)
    (view : View) : ViewData :=
  { vd with
      possible_selectors_hash := ViewData.get_possible_selectors_hash ps,
      possible_selectors :=
        ps.filter (fun s =>
          decide (0 < EntitySelector.check_scope_for_view s view) && s.enable_for_view view) }

/-- `ViewData.__init__`. -/
def ViewData.init (view : View) (selector : Option Selector)
    (ps : List SelectorClass) : ViewData :=
  ViewData.update_possible_selectors
    { id := view.id,
      scope := ViewData.scope_from_view view,
      selector := selector,
      possible_selectors_hash := "",
      possible_selectors := [] } ps view

/-- `ViewData.get_possible_selectors_for_view`: return the cached list, unless
the primary scope or the registry fingerprint changed, in which case store the
new scope and recompute. -/
def ViewData.get_possible_selectors_for_view (vd : ViewData)
    (ps : List SelectorClass) (view : View) : ViewData × List SelectorClass :=
  let scope := ViewData.scope_from_view view
  let hash_ := ViewData.get_possible_selectors_hash ps
  if vd.scope ≠ scope ∨ vd.possible_selectors_hash ≠ hash_ then
    let vd' := ViewData.update_possible_selectors { vd with scope := scope } ps view
    (vd', vd'.possible_selectors)
  else
    (vd, vd.possible_selectors)

/-- The module-level mutable state of `EntitySelector`. -/
structure ESState where
  viewSelectors : List (Nat × ViewData)
  possibleSelectors : List SelectorClass
  onBeforeCheckCallbacks : List Callback
  onAfterCheckCallbacks : List Callback

/-- The state at module load: all four containers empty. -/
def initState : ESState :=
  { viewSelectors := [], possibleSelectors := [],
    onBeforeCheckCallbacks := [], onAfterCheckCallbacks := [] }

namespace EntitySelector

/-- `EntitySelector.update_selector_for_view`: create a `ViewData` for the
view when none exists, otherwise assign only its `selector` field. -/
def update_selector_for_view (st : ESState) (view : View)
    (selector : Option Selector) : ESState :=
  match alookup st.viewSelectors view.id with
  | none =>
      { st with
          viewSelectors :=
            aset st.viewSelectors view.id (ViewData.init view selector st.possibleSelectors) }
  | some vd =>
      { st with
          viewSelectors :=
            aset st.viewSelectors view.id { vd with selector := selector } }

/-- `EntitySelector.get_selector_for_view`. -/
def get_selector_for_view (st : ESState) (view : View) : Option Selector :=
  match alookup st.viewSelectors view.id with
  | none => none
  | some vd => vd.selector

/-- Classmethod `EntitySelector.get_possible_selectors_for_view`: `[]` when the
view has no record, otherwise delegate to the record (which may update it). -/
def get_possible_selectors_for_view (st : ESState) (view : View) :
    ESState × List SelectorClass :=
  match alookup st.viewSelectors view.id with
  | none => (st, [])
  | some vd =>
      let p := ViewData.get_possible_selectors_for_view vd st.possibleSelectors view
      ({ st with viewSelectors := aset st.viewSelectors view.id p.1 }, p.2)

/-- `EntitySelector.compare_current_selection`: the scope must score positively
at every checked selection and each checked selection must be contained in one
of the stored regions. -/
def compare_current_selection (self : Selector) (view : View)
    (check_all_regions : Bool) : Except PyErr Bool := do
  let scores ← check_scope_for_selection self.cls view check_all_regions
  if scores.any (fun score => decide (score ≤ 0)) then
    return false
  let selections ←
    if check_all_regions then
      pure view.sel
    else
      match view.sel with
      | [] => Except.error PyErr.indexError
      | s :: _ => pure [s]
  return selections.all (fun s => self.regions.any (fun r => r.contains s))

end EntitySelector

namespace EntitySelector

/-- `EntitySelector.add_on_before_check_callback`.

`esCallbacks` is `EntitySelector.OnBeforeCheckCallbacks`; `clsOwn` is the
subclass's own `OnBeforeCheckCallbacks` class attribute (`none` when the class
defines none of its own, as is the case for `DocLink`, `Highlight` and
`StatusIdentifier`).  In the source, `hasattr(cls, 'OnBeforeCheckCallbacks')`
is always true because the attribute is inherited from `EntitySelector`, so
the `cls.OnBeforeCheckCallbacks = []` branch is dead; when the class has no
own attribute, `cls.OnBeforeCheckCallbacks.append(callback)` mutates the
inherited `EntitySelector` list itself. -/
def add_on_before_check_callback (esCallbacks : List Callback)
    (clsOwn : Option (List Callback)) (clsIsEntitySelector : Bool)
    (callback : Callback) (propagate : Bool) :
    List Callback × Option (List Callback) :=
  if clsIsEntitySelector || propagate then
    (esCallbacks ++ [callback], clsOwn)
  else
    match clsOwn with
    | some own => (esCallbacks, some (own ++ [callback]))
    | none => (esCallbacks ++ [callback], none)

/-- `EntitySelector.add_on_after_check_callback`; same mechanics as
`add_on_before_check_callback` on the after-check list. -/
def add_on_after_check_callback (esCallbacks : List Callback)
    (clsOwn : Option (List Callback)) (clsIsEntitySelector : Bool)
    (callback : Callback) (propagate : Bool) :
    List Callback × Option (List Callback) :=
  if clsIsEntitySelector || propagate then
    (esCallbacks ++ [callback], clsOwn)
  else
    match clsOwn with
    | some own => (esCallbacks, some (own ++ [callback]))
    | none => (esCallbacks ++ [callback], none)

/-- One iteration of the callback loops: the callback is invoked inside
`try/except Exception`, so a raised exception is caught (and logged); the
invocation record notes the arguments and whether the callback raised. -/
def runCallback (c : Callback) (clsName : String) (sel : Option Selector)
    (view : View) : CbCall :=
  match c.run clsName sel view with
  | Except.ok _ => { cb := c.cbId, argClsName := clsName, argSelector := sel, raised := false }
  | Except.error _ => { cb := c.cbId, argClsName := clsName, argSelector := sel, raised := true }

/-- `EntitySelector.run_on_before_check_callbacks`, as invoked with
`cls = EntitySelector` (how `match_entity` reaches it): every registered
callback is called with the current selector's class and instance, or with
`EntitySelector` and `None` when the view has no selector. -/
def run_on_before_check_callbacks (st : ESState) (view : View) :
    Except PyErr (List CbCall) :=
  match get_selector_for_view st view with
  | none =>
      Except.ok (st.onBeforeCheckCallbacks.map
        (fun c => runCallback c "EntitySelector" none view))
  | some s =>
      Except.ok (st.onBeforeCheckCallbacks.map
        (fun c => runCallback c s.cls.name (some s) view))

/-- `EntitySelector.run_on_after_check_callbacks`, as invoked with
`cls = EntitySelector`. -/
def run_on_after_check_callbacks (st : ESState) (view : View) :
    Except PyErr (List CbCall) :=
  match get_selector_for_view st view with
  | none =>
      Except.ok (st.onAfterCheckCallbacks.map
        (fun c => runCallback c "EntitySelector" none view))
  | some s =>
      Except.ok (st.onAfterCheckCallbacks.map
        (fun c => runCallback c s.cls.name (some s) view))

end EntitySelector

/-- Python tuple comparison `(score, class) < (score, class)` as used by
`selectors.sort(reverse = True)`: scores first, class names (via
`SortableABCMeta.__lt__`) to break ties. -/
def pairLtB (p q : Int × SelectorClass) : Bool :=
  decide (p.1 < q.1) || (p.1 == q.1 && decide (p.2.name < q.2.name))

/-- Insert into a descending-sorted list, keeping the stable order that
Python's `list.sort(reverse = True)` produces. -/
def insertDesc (x : Int × SelectorClass) :
    List (Int × SelectorClass) → List (Int × SelectorClass)
  | [] => [x]
  | y :: ys => if pairLtB x y then y :: insertDesc x ys else x :: y :: ys

/-- `selectors.sort(reverse = True)`: stable descending sort. -/
def sortDesc : List (Int × SelectorClass) → List (Int × SelectorClass)
  | [] => []
  | x :: xs => insertDesc x (sortDesc xs)

/-- The scope-selection score of a class at the view's first selection (0 when
there is none); `check_scope_for_selection(view)[0]` equals this whenever the
view has a selection. -/
def scoreAtFirst (cls : SelectorClass) (view : View) : Int :=
  match view.sel with
  | [] => 0
  | s :: _ => view.score_selector s.begin_ cls.scope_selection_enabler

namespace EntitySelector

/-- The accumulation loop of `sorted_selectors_for_selection`: score each
candidate with `check_scope_for_selection(view)[0]` and keep the positive
ones, paired with their scores, in registry order. -/
def collectScored (view : View) :
    List SelectorClass → Except PyErr (List (Int × SelectorClass))
  | [] => Except.ok []
  | c :: cs => do
      let scores ← check_scope_for_selection c view false
      let score ←
        match scores with
        | [] => Except.error PyErr.indexError
        | s :: _ => pure s
      let rest ← collectScored view cs
      pure (if 0 < score then (score, c) :: rest else rest)

/-- `EntitySelector.sorted_selectors_for_selection`: the applicable selectors
with a positive selection-scope score, sorted in descending score order. -/
def sorted_selectors_for_selection (st : ESState) (view : View) :
    Except PyErr (ESState × List SelectorClass) := do
  let p := get_possible_selectors_for_view st view
  let selectors ← collectScored view p.2
  pure (p.1, (sortDesc selectors).map Prod.snd)

/-- The last space-separated component, `s.split(' ')[-1]`. -/
def lastComponent (s : String) : String :=
  (pySplitSpace s).getLastD ""

/-- The loop body of `EntitySelector.check_regions`, carrying `overall_scope`
(`none` until the first iteration assigns it). -/
def checkRegionsGo (view : View) : Option String → List Region → Bool
  | _, [] => true
  | overall, s :: rest =>
      let start_scope := pyStrip (view.scope_name s.begin_)
      if pyStrip (view.scope_name s.end_) ≠ start_scope ∧
          (s.empty ∨ pyStrip (view.scope_name (s.end_ - 1)) ≠ start_scope) then
        false
      else
        let ss := lastComponent start_scope
        match overall with
        | some o => if ss ≠ o then false else checkRegionsGo view (some o) rest
        | none => checkRegionsGo view (some ss) rest

/-- `EntitySelector.check_regions`: every selection must begin and end in the
same scope, and all selections must share the same final scope component. -/
def check_regions (view : View) : Bool :=
  checkRegionsGo view none view.sel

/-- The selector-resolution loop of `match_entity`: try each candidate in
order; the first whose `enable_for_selection` is truthy is instantiated
(`c(view, **kwargs)`, whose base `__init__` stores `view.sel()` and assigns
the instance to the view) and the loop breaks. -/
def resolutionLoop (st : ESState) (view : View) :
    List SelectorClass → ESState × List Event
  | [] => (st, [])
  | c :: cs =>
      match c.enable_for_selection view with
      | some _ =>
          let inst : Selector := { cls := c, regions := view.sel }
          (update_selector_for_view st view (some inst),
           [Event.tried c.name, Event.activated c.name])
      | none =>
          let p := resolutionLoop st view cs
          (p.1, Event.tried c.name :: p.2)

/-- The tail of `match_entity` after the three early exits: clear the view's
selector, run the before-check callbacks, stop if `check_regions` fails,
otherwise run the resolution loop and then the after-check callbacks. -/
def match_entity_core (st : ESState) (view : View) :
    Except PyErr (ESState × List Event) := do
  let st1 := update_selector_for_view st view none
  let bc ← run_on_before_check_callbacks st1 view
  if !check_regions view then
    pure (st1, bc.map Event.before)
  else do
    let p ← sorted_selectors_for_selection st1 view
    let q := resolutionLoop p.1 view p.2
    let ac ← run_on_after_check_callbacks q.1 view
    pure (q.1, bc.map Event.before ++ q.2 ++ ac.map Event.after)

/-- `EntitySelector.match_entity` (invoked with `cls = EntitySelector`, as the
event listeners do): early exits on an empty registry, a widget view, or an
active selector that still matches the current selection. -/
def match_entity (st : ESState) (view : View) :
    Except PyErr (ESState × List Event) :=
  if st.possibleSelectors.isEmpty then
    Except.ok (st, [])
  else if view.is_widget then
    Except.ok (st, [])
  else
    match get_selector_for_view st view with
    | some selector =>
        match compare_current_selection selector view false with
        | Except.error e => Except.error e
        | Except.ok true => Except.ok (st, [])
        | Except.ok false => match_entity_core st view
    | none => match_entity_core st view

end EntitySelector

/-- The early-exit condition on the active selector: the view either has no
active selector, or its `compare_current_selection` returns `False`. -/
def no_still_matching_selector (st : ESState) (view : View) : Prop :=
  match EntitySelector.get_selector_for_view st view with
  | none => True
  | some s => EntitySelector.compare_current_selection s view false = Except.ok false

/-- An effect the code performs on the host view. -/
inductive ViewEffect where
  | addRegions (key : String) (regions : List Region)
  | eraseRegions (key : String)
  | setStatus (key : String) (msg : String)
  | eraseStatus (key : String)
deriving Repr

namespace Highlight

/-- `Highlight.STATUS_KEY`. -/
def STATUS_KEY : String := "entity_select_num_highlights"

/-- A `Highlight` instance: the view it was created over, the stored
`highlight_regions`, the value its (subclass-overridden)
`get_highlight_regions` currently computes, and its
`highlight_status_message` behaviour. -/
structure HighlightInst where
  view : View
  highlight_regions : List Region
  get_highlight_regions : List Region
  highlight_status_message : Nat → Option Nat → String

/-- `Highlight.Highlighters`: view id to assigned highlighter (or `None`). -/
abbrev Highlighters := List (Nat × Option HighlightInst)

/-- The outcome of a `Highlight` method: the updated instance, the updated
`Highlighters` dictionary, the view effects performed, and the exception in
flight when one was raised after those effects. -/
structure HighlightResult where
  inst : HighlightInst
  highlighters : Highlighters
  effects : List ViewEffect
  exn : Option PyErr

/-- 1-based index of the first highlight region intersecting the selection,
as computed by `Highlight.display_status_string`. -/
def currentHighlightIndex (hr : List Region) (sel0 : Region) : Option Nat :=
  go hr 1
where
  go : List Region → Nat → Option Nat
    | [], _ => none
    | r :: rest, i => if r.intersects sel0 then some i else go rest (i + 1)

/-- `Highlight.display_status_string` on the direct-call path taken by
`add_highlight_regions` (`view` and `highlighter` both given): sets the
status-bar message; `view.sel()[0]` raises `IndexError` when the view has no
selection. -/
def display_status_string (view : View) (highlighter : HighlightInst) :
    List ViewEffect × Option PyErr :=
  let hr := highlighter.get_highlight_regions
  match view.sel with
  | [] => ([], some PyErr.indexError)
  | sel0 :: _ =>
      ([ViewEffect.setStatus STATUS_KEY
          (highlighter.highlight_status_message hr.length (currentHighlightIndex hr sel0))],
       none)

/-- `Highlight.add_highlight_regions`: draw the stored highlight regions and
display the status message. -/
def add_highlight_regions (self : HighlightInst) : List ViewEffect × Option PyErr :=
  let p := display_status_string self.view self
  (ViewEffect.addRegions "entity_select_highlight" self.highlight_regions :: p.1, p.2)

/-- `Highlight.erase_highlight_regions`: remove the drawn regions and the
status message. -/
def erase_highlight_regions : List ViewEffect :=
  [ViewEffect.eraseRegions "entity_select_highlight", ViewEffect.eraseStatus STATUS_KEY]

/-- `Highlight.assign_highlighter_to_view`. -/
def assign_highlighter_to_view (self : HighlightInst) (hls : Highlighters) : Highlighters :=
  aset hls self.view.id (some self)

/-- `Highlight.remove_highlighter_from_view`: clear the assignment and erase
regions and status. -/
def remove_highlighter_from_view (self : HighlightInst) (hls : Highlighters) :
    Highlighters × List ViewEffect :=
  (aset hls self.view.id none, erase_highlight_regions)

/-- `Highlight.highlight`: when `get_highlight_regions()` is non-empty, store
exactly those regions (`clear()` then `extend(hr)`), assign this highlighter
to the view and draw; otherwise remove the highlighter from the view. -/
def highlight (self : HighlightInst) (hls : Highlighters) : HighlightResult :=
  let hr := self.get_highlight_regions
  if hr.isEmpty then
    let p := remove_highlighter_from_view self hls
    { inst := self, highlighters := p.1, effects := p.2, exn := none }
  else
    let self' := { self with highlight_regions := hr }
    let hls' := assign_highlighter_to_view self' hls
    let q := add_highlight_regions self'
    { inst := self', highlighters := hls', effects := q.1, exn := q.2 }

end Highlight

/-- The `(score, class)` pairs the scoring loop keeps: classes whose
selection-scope score at the first selection is positive, in registry order. -/
def scoredCandidates (view : View) (ps : List SelectorClass) : List (Int × SelectorClass) :=
  ps.filterMap (fun c =>
    if 0 < scoreAtFirst c view then some (scoreAtFirst c view, c) else none)


/-- The state/event pair produced by the resolution loop inside
`match_entity_core` (selector cleared, candidate list sorted). -/
def EntitySelector.coreLoopResult (st : ESState) (view : View) : ESState × List Event :=
  EntitySelector.resolutionLoop
    (EntitySelector.get_possible_selectors_for_view (EntitySelector.update_selector_for_view st view none) view).1 view
    ((sortDesc (scoredCandidates view
      (EntitySelector.get_possible_selectors_for_view (EntitySelector.update_selector_for_view st view none) view).2)).map
        Prod.snd)

/-! ### Concrete fixtures used by witnesses and counterexamples -/

/-- A demonstration selector class used by several concrete scenarios. -/
def demoCls : SelectorClass :=
  { name := "DemoSelector", scope_view_enabler := "source.demo",
    scope_selection_enabler := "source.demo",
    enable_for_view := fun _ => true, enable_for_selection := fun _ => none }

def w1Cls : SelectorClass :=
  { name := "W1Sel", scope_view_enabler := "source.w1",
    scope_selection_enabler := "source.w1",
    enable_for_view := fun _ => true, enable_for_selection := fun _ => some [] }

def w1Bc : Callback := { cbId := "w1bc", run := fun _ _ _ => Except.ok () }

def w1Ac : Callback := { cbId := "w1ac", run := fun _ _ _ => Except.ok () }

def w1View : View :=
  { id := 11, sel := [{ a := 0, b := 1 }], score_selector := fun _ _ => 1,
    scope_name := fun _ => "source.w1", is_widget := false }

def w1St : ESState :=
  { viewSelectors := [], possibleSelectors := [w1Cls],
    onBeforeCheckCallbacks := [w1Bc], onAfterCheckCallbacks := [w1Ac] }

def c1cexCls : SelectorClass :=
  { name := "CexSel", scope_view_enabler := "source.cex",
    scope_selection_enabler := "source.cex",
    enable_for_view := fun _ => true, enable_for_selection := fun _ => some [] }

def c1cexBc : Callback := { cbId := "c1bc", run := fun _ _ _ => Except.ok () }

def c1cexAc : Callback := { cbId := "c1ac", run := fun _ _ _ => Except.ok () }

/-- A view whose two selections carry different final scope components, so
`check_regions` returns `False`. -/
def c1cexView : View :=
  { id := 12, sel := [{ a := 0, b := 0 }, { a := 1, b := 1 }],
    score_selector := fun _ _ => 0,
    scope_name := fun p => if p == 0 then "src a" else "src b",
    is_widget := false }

def c1cexSt : ESState :=
  { viewSelectors := [], possibleSelectors := [c1cexCls],
    onBeforeCheckCallbacks := [c1cexBc], onAfterCheckCallbacks := [c1cexAc] }

def w2Cls : SelectorClass :=
  { name := "W2Sel", scope_view_enabler := "source.w2",
    scope_selection_enabler := "source.w2",
    enable_for_view := fun _ => true, enable_for_selection := fun _ => some [] }

def w2Cb : Callback := { cbId := "w2cb", run := fun _ _ _ => Except.ok () }

def w2View : View :=
  { id := 13, sel := [{ a := 0, b := 1 }], score_selector := fun _ _ => 1,
    scope_name := fun _ => "source.w2", is_widget := false }

def w2St : ESState :=
  { viewSelectors := [], possibleSelectors := [w2Cls],
    onBeforeCheckCallbacks := [w2Cb], onAfterCheckCallbacks := [] }

def w2StOut : ESState :=
  match EntitySelector.match_entity w2St w2View with
  | Except.ok p => p.1
  | Except.error _ => w2St

def w2Evs : List Event :=
  match EntitySelector.match_entity w2St w2View with
  | Except.ok p => p.2
  | Except.error _ => []

def w2Call : CbCall :=
  { cb := "w2cb", argClsName := "EntitySelector", argSelector := none, raised := false }

def c2cexSel : Selector := { cls := demoCls, regions := [] }

def c2cexCb : Callback := { cbId := "c2cb", run := fun _ _ _ => Except.ok () }

def c2cexView : View :=
  { id := 14, sel := [{ a := 0, b := 1 }], score_selector := fun _ _ => 1,
    scope_name := fun _ => "source.demo", is_widget := false }

def c2cexVd : ViewData :=
  { id := 14, scope := "source.demo", selector := some c2cexSel,
    possible_selectors_hash := ViewData.get_possible_selectors_hash [demoCls],
    possible_selectors := [] }

def c2cexSt : ESState :=
  { viewSelectors := [(14, c2cexVd)], possibleSelectors := [demoCls],
    onBeforeCheckCallbacks := [c2cexCb], onAfterCheckCallbacks := [] }

def w3High : SelectorClass :=
  { name := "HighSel", scope_view_enabler := "source.w3",
    scope_selection_enabler := "high",
    enable_for_view := fun _ => true, enable_for_selection := fun _ => none }

def w3Low : SelectorClass :=
  { name := "LowSel", scope_view_enabler := "source.w3",
    scope_selection_enabler := "low",
    enable_for_view := fun _ => true, enable_for_selection := fun _ => some [] }

def w3View : View :=
  { id := 15, sel := [{ a := 0, b := 1 }],
    score_selector := fun _ scope => if scope == "high" then 2 else 1,
    scope_name := fun _ => "source.w3", is_widget := false }

def w3Vd : ViewData :=
  { id := 15, scope := "source.w3", selector := none,
    possible_selectors_hash := ViewData.get_possible_selectors_hash [w3Low, w3High],
    possible_selectors := [w3Low, w3High] }

def w3St : ESState :=
  { viewSelectors := [(15, w3Vd)], possibleSelectors := [w3Low, w3High],
    onBeforeCheckCallbacks := [], onAfterCheckCallbacks := [] }

def w4High : SelectorClass :=
  { name := "W4High", scope_view_enabler := "source.w4",
    scope_selection_enabler := "high",
    enable_for_view := fun _ => true, enable_for_selection := fun _ => none }

def w4Low : SelectorClass :=
  { name := "W4Low", scope_view_enabler := "source.w4",
    scope_selection_enabler := "low",
    enable_for_view := fun _ => true, enable_for_selection := fun _ => some [] }

def w4View : View :=
  { id := 16, sel := [{ a := 0, b := 1 }],
    score_selector := fun _ scope => if scope == "high" then 2 else 1,
    scope_name := fun _ => "source.w4", is_widget := false }

def w4Vd : ViewData :=
  { id := 16, scope := "source.w4", selector := none,
    possible_selectors_hash := ViewData.get_possible_selectors_hash [w4Low, w4High],
    possible_selectors := [w4Low, w4High] }

def w4St : ESState :=
  { viewSelectors := [(16, w4Vd)], possibleSelectors := [w4Low, w4High],
    onBeforeCheckCallbacks := [], onAfterCheckCallbacks := [] }

def w5Cls : SelectorClass :=
  { name := "W5Sel", scope_view_enabler := "source.w5",
    scope_selection_enabler := "source.w5",
    enable_for_view := fun _ => true, enable_for_selection := fun _ => none }

def w5View : View :=
  { id := 18, sel := [{ a := 0, b := 1 }], score_selector := fun _ _ => 1,
    scope_name := fun _ => "source.w5", is_widget := false }

def w5Sel : Selector := { cls := w5Cls, regions := [{ a := 0, b := 1 }] }

def w5Vd : ViewData :=
  { id := 18, scope := "source.w5", selector := some w5Sel,
    possible_selectors_hash := ViewData.get_possible_selectors_hash [w5Cls],
    possible_selectors := [w5Cls] }

def w5St : ESState :=
  { viewSelectors := [(18, w5Vd)], possibleSelectors := [w5Cls],
    onBeforeCheckCallbacks := [], onAfterCheckCallbacks := [] }

def w7View : View :=
  { id := 19, sel := [], score_selector := fun _ _ => 0,
    scope_name := fun _ => "text.plain", is_widget := false }

def w7Sel : Selector := { cls := demoCls, regions := [] }

def w9ViewNoSel : View :=
  { id := 20, sel := [], score_selector := fun _ _ => 2,
    scope_name := fun _ => "source.nine", is_widget := false }

def w9View : View :=
  { id := 20, sel := [{ a := 0, b := 0 }], score_selector := fun _ _ => 2,
    scope_name := fun _ => "source.nine", is_widget := false }

def w10View : View :=
  { id := 17, sel := [{ a := 0, b := 1 }], score_selector := fun _ _ => 1,
    scope_name := fun _ => "source.ten", is_widget := false }

def w10Msg : Nat → Option Nat → String :=
  fun total _ => toString total ++ " highlighted regions"

/-- A highlighter whose `get_highlight_regions` currently finds one region. -/
def w10A : Highlight.HighlightInst :=
  { view := w10View, highlight_regions := [],
    get_highlight_regions := [{ a := 0, b := 1 }],
    highlight_status_message := w10Msg }

/-- A highlighter whose `get_highlight_regions` currently finds nothing. -/
def w10B : Highlight.HighlightInst :=
  { view := w10View, highlight_regions := [{ a := 2, b := 3 }],
    get_highlight_regions := [],
    highlight_status_message := w10Msg }

/-! ### Basic lemmas about the state containers -/

theorem alookup_aset_self {α : Type} (m : List (Nat × α)) (k : Nat) (v : α) :
    alookup (aset m k v) k = some v := by
  induction m with
  | nil => simp [aset, alookup, List.find?]
  | cons p rest ih =>
    obtain ⟨k', v'⟩ := p
    by_cases h : k' = k
    · simp [aset, h, alookup, List.find?]
    · have hb : (k' == k) = false := by simp [h]
      simp only [aset, hb, Bool.false_eq_true, if_false, alookup, List.find?, hb]
      exact ih

namespace EntitySelector

theorem update_preserves (st : ESState) (view : View) (s : Option Selector) :
    (update_selector_for_view st view s).possibleSelectors = st.possibleSelectors ∧
    (update_selector_for_view st view s).onBeforeCheckCallbacks = st.onBeforeCheckCallbacks ∧
    (update_selector_for_view st view s).onAfterCheckCallbacks = st.onAfterCheckCallbacks := by
  unfold update_selector_for_view
  cases alookup st.viewSelectors view.id <;> simp

theorem viewDataInit_selector (view : View) (s : Option Selector) (ps : List SelectorClass) :
    (ViewData.init view s ps).selector = s := by
  simp [ViewData.init, ViewData.update_possible_selectors]

theorem get_selector_update (st : ESState) (view : View) (s : Option Selector) :
    get_selector_for_view (update_selector_for_view st view s) view = s := by
  unfold get_selector_for_view update_selector_for_view
  cases alookup st.viewSelectors view.id <;>
    simp [alookup_aset_self, viewDataInit_selector]

theorem get_possible_preserves (st : ESState) (view : View) :
    (get_possible_selectors_for_view st view).1.possibleSelectors = st.possibleSelectors ∧
    (get_possible_selectors_for_view st view).1.onBeforeCheckCallbacks = st.onBeforeCheckCallbacks ∧
    (get_possible_selectors_for_view st view).1.onAfterCheckCallbacks = st.onAfterCheckCallbacks := by
  unfold get_possible_selectors_for_view
  cases alookup st.viewSelectors view.id <;> simp

theorem runCallback_cb (c : Callback) (n : String) (s : Option Selector) (view : View) :
    (runCallback c n s view).cb = c.cbId := by
  unfold runCallback; cases c.run n s view <;> rfl

theorem runCallback_argClsName (c : Callback) (n : String) (s : Option Selector) (view : View) :
    (runCallback c n s view).argClsName = n := by
  unfold runCallback; cases c.run n s view <;> rfl

theorem runCallback_argSelector (c : Callback) (n : String) (s : Option Selector) (view : View) :
    (runCallback c n s view).argSelector = s := by
  unfold runCallback; cases c.run n s view <;> rfl

theorem runCallback_raised_iff (c : Callback) (n : String) (s : Option Selector) (view : View) :
    (runCallback c n s view).raised = true ↔ ∃ e, c.run n s view = Except.error e := by
  unfold runCallback
  cases h : c.run n s view <;> simp

theorem run_on_before_ok (st : ESState) (view : View) :
    ∃ bc, run_on_before_check_callbacks st view = Except.ok bc ∧
      bc.map CbCall.cb = st.onBeforeCheckCallbacks.map Callback.cbId := by
  unfold run_on_before_check_callbacks
  cases get_selector_for_view st view <;>
    exact ⟨_, rfl, by simp [runCallback_cb]⟩

theorem run_on_after_ok (st : ESState) (view : View) :
    ∃ ac, run_on_after_check_callbacks st view = Except.ok ac ∧
      ac.map CbCall.cb = st.onAfterCheckCallbacks.map Callback.cbId := by
  unfold run_on_after_check_callbacks
  cases get_selector_for_view st view <;>
    exact ⟨_, rfl, by simp [runCallback_cb]⟩

theorem run_on_before_of_none (st : ESState) (view : View)
    (h : get_selector_for_view st view = none) :
    run_on_before_check_callbacks st view =
      Except.ok (st.onBeforeCheckCallbacks.map
        (fun c => runCallback c "EntitySelector" none view)) := by
  unfold run_on_before_check_callbacks
  rw [h]

theorem run_on_before_of_some (st : ESState) (view : View) (s : Selector)
    (h : get_selector_for_view st view = some s) :
    run_on_before_check_callbacks st view =
      Except.ok (st.onBeforeCheckCallbacks.map
        (fun c => runCallback c s.cls.name (some s) view)) := by
  unfold run_on_before_check_callbacks
  rw [h]

theorem run_on_after_of_none (st : ESState) (view : View)
    (h : get_selector_for_view st view = none) :
    run_on_after_check_callbacks st view =
      Except.ok (st.onAfterCheckCallbacks.map
        (fun c => runCallback c "EntitySelector" none view)) := by
  unfold run_on_after_check_callbacks
  rw [h]

theorem run_on_after_of_some (st : ESState) (view : View) (s : Selector)
    (h : get_selector_for_view st view = some s) :
    run_on_after_check_callbacks st view =
      Except.ok (st.onAfterCheckCallbacks.map
        (fun c => runCallback c s.cls.name (some s) view)) := by
  unfold run_on_after_check_callbacks
  rw [h]

end EntitySelector

/-! ### Lemmas about the stable descending sort -/

theorem pairLtB_le {p q : Int × SelectorClass} (h : pairLtB p q = true) : p.1 ≤ q.1 := by
  unfold pairLtB at h
  rcases Bool.or_eq_true_iff.mp h with h1 | h2
  · exact le_of_lt (of_decide_eq_true h1)
  · exact le_of_eq (beq_iff_eq.mp (Bool.and_eq_true_iff.mp h2).1)

theorem pairLtB_false_le {p q : Int × SelectorClass} (h : pairLtB p q = false) : q.1 ≤ p.1 := by
  unfold pairLtB at h
  have h1 : decide (p.1 < q.1) = false := by
    cases hd : decide (p.1 < q.1) <;> simp [hd] at h ⊢
  exact le_of_not_lt (of_decide_eq_false h1)

theorem insertDesc_perm (x : Int × SelectorClass) (l : List (Int × SelectorClass)) :
    List.Perm (insertDesc x l) (x :: l) := by
  induction l with
  | nil => simp [insertDesc]
  | cons y ys ih =>
    unfold insertDesc
    by_cases h : pairLtB x y = true
    · simp only [h, if_true]
      exact (ih.cons y).trans (List.Perm.swap x y ys)
    · have h' : pairLtB x y = false := by
        cases hb : pairLtB x y
        · rfl
        · exact absurd hb h
      simp [h']

theorem mem_insertDesc {x z : Int × SelectorClass} {l : List (Int × SelectorClass)}
    (h : z ∈ insertDesc x l) : z = x ∨ z ∈ l := by
  have := (insertDesc_perm x l).mem_iff.mp h
  simpa using this

theorem insertDesc_pairwise (x : Int × SelectorClass) (l : List (Int × SelectorClass))
    (h : l.Pairwise (fun p q => q.1 ≤ p.1)) :
    (insertDesc x l).Pairwise (fun p q => q.1 ≤ p.1) := by
  induction l with
  | nil => simp [insertDesc]
  | cons y ys ih =>
    rw [List.pairwise_cons] at h
    obtain ⟨hy, hys⟩ := h
    unfold insertDesc
    by_cases hlt : pairLtB x y = true
    · simp only [hlt, if_true]
      rw [List.pairwise_cons]
      refine ⟨fun z hz => ?_, ih hys⟩
      rcases mem_insertDesc hz with hz | hz
      · subst hz; exact pairLtB_le hlt
      · exact hy z hz
    · have hlt' : pairLtB x y = false := by
        cases hb : pairLtB x y
        · rfl
        · exact absurd hb hlt
      simp only [hlt', Bool.false_eq_true, if_false]
      rw [List.pairwise_cons]
      refine ⟨fun z hz => ?_, by rw [List.pairwise_cons]; exact ⟨hy, hys⟩⟩
      rcases List.mem_cons.mp hz with hz | hz
      · subst hz; exact pairLtB_false_le hlt'
      · exact le_trans (hy z hz) (pairLtB_false_le hlt')

theorem sortDesc_perm (l : List (Int × SelectorClass)) : List.Perm (sortDesc l) l := by
  induction l with
  | nil => simp [sortDesc]
  | cons x xs ih =>
    unfold sortDesc
    exact (insertDesc_perm x (sortDesc xs)).trans (ih.cons x)

theorem sortDesc_pairwise (l : List (Int × SelectorClass)) :
    (sortDesc l).Pairwise (fun p q => q.1 ≤ p.1) := by
  induction l with
  | nil => simp [sortDesc]
  | cons x xs ih =>
    unfold sortDesc
    exact insertDesc_pairwise x (sortDesc xs) ih

/-! ### The scored-candidate list built by `sorted_selectors_for_selection` -/

theorem scoredCandidates_map_snd (view : View) (ps : List SelectorClass) :
    (scoredCandidates view ps).map Prod.snd =
      ps.filter (fun c => decide (0 < scoreAtFirst c view)) := by
  induction ps with
  | nil => simp [scoredCandidates]
  | cons c cs ih =>
    simp only [scoredCandidates, List.filterMap_cons, List.filter_cons] at ih ⊢
    by_cases h : 0 < scoreAtFirst c view
    · simp [h, ih]
    · simp [h, ih]

theorem scoredCandidates_mem (view : View) (ps : List SelectorClass) :
    ∀ p ∈ scoredCandidates view ps, p.1 = scoreAtFirst p.2 view := by
  intro p hp
  simp only [scoredCandidates, List.mem_filterMap] at hp
  obtain ⟨c, _, hc⟩ := hp
  by_cases h : 0 < scoreAtFirst c view
  · rw [if_pos h] at hc
    cases hc
    rfl
  · rw [if_neg h] at hc
    cases hc

namespace EntitySelector

theorem check_scope_for_selection_first (cls : SelectorClass) (view : View)
    (r : Region) (rs : List Region) (h : view.sel = r :: rs) :
    check_scope_for_selection cls view false = Except.ok [scoreAtFirst cls view] := by
  unfold check_scope_for_selection scoreAtFirst
  rw [h]
  rfl

theorem collectScored_ok (view : View) (r : Region) (rs : List Region)
    (h : view.sel = r :: rs) (ps : List SelectorClass) :
    collectScored view ps = Except.ok (scoredCandidates view ps) := by
  induction ps with
  | nil => simp [collectScored, scoredCandidates]
  | cons c cs ih =>
    unfold collectScored
    rw [check_scope_for_selection_first c view r rs h]
    simp only [scoredCandidates, List.filterMap_cons] at ih ⊢
    rw [ih]
    by_cases hpos : 0 < scoreAtFirst c view
    · simp [hpos, Bind.bind, Except.bind, Pure.pure, Except.pure]
    · simp [hpos, Bind.bind, Except.bind, Pure.pure, Except.pure]

theorem sorted_selectors_ok (st : ESState) (view : View) (r : Region) (rs : List Region)
    (h : view.sel = r :: rs) :
    sorted_selectors_for_selection st view =
      Except.ok ((get_possible_selectors_for_view st view).1,
        (sortDesc (scoredCandidates view (get_possible_selectors_for_view st view).2)).map
          Prod.snd) := by
  unfold sorted_selectors_for_selection
  simp [collectScored_ok view r rs h, Bind.bind, Except.bind, Pure.pure, Except.pure]

/-! ### Lemmas about the resolution loop and the `match_entity` control flow -/

theorem resolutionLoop_preserves (st : ESState) (view : View) (l : List SelectorClass) :
    (resolutionLoop st view l).1.onBeforeCheckCallbacks = st.onBeforeCheckCallbacks ∧
    (resolutionLoop st view l).1.onAfterCheckCallbacks = st.onAfterCheckCallbacks := by
  induction l with
  | nil => exact ⟨rfl, rfl⟩
  | cons c cs ih =>
    unfold resolutionLoop
    cases c.enable_for_selection view with
    | some kw =>
        exact ⟨(update_preserves st view _).2.1, (update_preserves st view _).2.2⟩
    | none => exact ih

theorem resolutionLoop_events (st : ESState) (view : View) (l : List SelectorClass) :
    ∀ e ∈ (resolutionLoop st view l).2, e.isBefore = false ∧ e.isAfter = false := by
  induction l with
  | nil => intro e he; simp [resolutionLoop] at he
  | cons c cs ih =>
    unfold resolutionLoop
    cases c.enable_for_selection view with
    | some kw =>
        intro e he
        simp at he
        rcases he with he | he <;> subst he <;> exact ⟨rfl, rfl⟩
    | none =>
        intro e he
        simp at he
        rcases he with he | he
        · subst he; exact ⟨rfl, rfl⟩
        · exact ih e he

theorem resolutionLoop_all_falsy (st : ESState) (view : View) (l : List SelectorClass)
    (h : ∀ d ∈ l, d.enable_for_selection view = none) :
    resolutionLoop st view l = (st, l.map (fun d => Event.tried d.name)) := by
  induction l with
  | nil => rfl
  | cons c cs ih =>
    unfold resolutionLoop
    rw [h c (by simp)]
    simp [ih (fun d hd => h d (by simp [hd]))]

theorem resolutionLoop_first_truthy (st : ESState) (view : View)
    (pre post : List SelectorClass) (c : SelectorClass) (kw : Kwargs)
    (hpre : ∀ d ∈ pre, d.enable_for_selection view = none)
    (hc : c.enable_for_selection view = some kw) :
    resolutionLoop st view (pre ++ c :: post) =
      (update_selector_for_view st view
         (some { cls := c, regions := view.sel }),
       pre.map (fun d => Event.tried d.name) ++
         [Event.tried c.name, Event.activated c.name]) := by
  induction pre with
  | nil =>
    simp only [List.nil_append, List.map_nil]
    unfold resolutionLoop
    rw [hc]
  | cons d ds ih =>
    simp only [List.cons_append, List.map_cons]
    unfold resolutionLoop
    rw [hpre d (by simp)]
    rw [ih (fun d' hd' => hpre d' (by simp [hd']))]

theorem match_entity_proceeds (st : ESState) (view : View)
    (hps : st.possibleSelectors ≠ []) (hw : view.is_widget = false)
    (hsel : no_still_matching_selector st view) :
    match_entity st view = match_entity_core st view := by
  unfold match_entity
  have hne : st.possibleSelectors.isEmpty = false := by
    cases hl : st.possibleSelectors with
    | nil => exact absurd hl hps
    | cons a l => rfl
  rw [hne, hw]
  simp only [Bool.false_eq_true, if_false]
  unfold no_still_matching_selector at hsel
  cases hg : get_selector_for_view st view with
  | none => rfl
  | some s =>
    rw [hg] at hsel
    simp only at hsel
    simp [hsel]

theorem core_check_regions_false (st : ESState) (view : View)
    (h : check_regions view = false) :
    match_entity_core st view =
      Except.ok (update_selector_for_view st view none,
        (st.onBeforeCheckCallbacks.map
          (fun c => runCallback c "EntitySelector" none view)).map Event.before) := by
  simp only [match_entity_core]
  rw [run_on_before_of_none _ _ (get_selector_update st view none)]
  rw [(update_preserves st view none).2.1]
  simp [h, Bind.bind, Except.bind, Pure.pure, Except.pure]

theorem coreLoopResult_preserves (st : ESState) (view : View) :
    (coreLoopResult st view).1.onBeforeCheckCallbacks = st.onBeforeCheckCallbacks ∧
    (coreLoopResult st view).1.onAfterCheckCallbacks = st.onAfterCheckCallbacks := by
  unfold coreLoopResult
  constructor
  · rw [(resolutionLoop_preserves _ view _).1, (get_possible_preserves _ view).2.1,
       (update_preserves st view none).2.1]
  · rw [(resolutionLoop_preserves _ view _).2, (get_possible_preserves _ view).2.2,
       (update_preserves st view none).2.2]

theorem coreLoopResult_events (st : ESState) (view : View) :
    ∀ e ∈ (coreLoopResult st view).2, e.isBefore = false ∧ e.isAfter = false := by
  unfold coreLoopResult
  exact resolutionLoop_events _ view _

theorem core_success_eq (st : ESState) (view : View) (r : Region) (rs : List Region)
    (hsl : view.sel = r :: rs) (hcr : check_regions view = true)
    (ac : List CbCall)
    (hac : run_on_after_check_callbacks (coreLoopResult st view).1 view = Except.ok ac) :
    match_entity_core st view =
      Except.ok ((coreLoopResult st view).1,
        (st.onBeforeCheckCallbacks.map
          (fun c => runCallback c "EntitySelector" none view)).map Event.before
        ++ (coreLoopResult st view).2 ++ ac.map Event.after) := by
  simp only [coreLoopResult] at hac ⊢
  simp only [match_entity_core]
  rw [run_on_before_of_none _ _ (get_selector_update st view none)]
  rw [sorted_selectors_ok (update_selector_for_view st view none) view r rs hsl]
  simp only [Bind.bind, Except.bind, hcr, Bool.not_true, Bool.false_eq_true, if_false]
  rw [hac]
  simp [(update_preserves st view none).2.1, Pure.pure, Except.pure]

theorem core_success (st : ESState) (view : View) (r : Region) (rs : List Region)
    (hsl : view.sel = r :: rs) (hcr : check_regions view = true) :
    ∃ (st3 : ESState) (loopEvs : List Event) (ac : List CbCall),
      match_entity_core st view =
        Except.ok (st3,
          (st.onBeforeCheckCallbacks.map
            (fun c => runCallback c "EntitySelector" none view)).map Event.before
          ++ loopEvs ++ ac.map Event.after) ∧
      ac.map CbCall.cb = st.onAfterCheckCallbacks.map Callback.cbId ∧
      (∀ e ∈ loopEvs, e.isBefore = false ∧ e.isAfter = false) := by
  obtain ⟨ac, hac, hacids⟩ := run_on_after_ok (coreLoopResult st view).1 view
  refine ⟨(coreLoopResult st view).1, (coreLoopResult st view).2, ac,
    core_success_eq st view r rs hsl hcr ac hac, ?_, coreLoopResult_events st view⟩
  rw [hacids, (coreLoopResult_preserves st view).2]

theorem core_before_args (st : ESState) (view : View) (st' : ESState) (evs : List Event)
    (h : match_entity_core st view = Except.ok (st', evs)) :
    ∀ call, Event.before call ∈ evs →
      call.argClsName = "EntitySelector" ∧ call.argSelector = none := by
  simp only [match_entity_core] at h
  rw [run_on_before_of_none _ _ (get_selector_update st view none)] at h
  simp only [Bind.bind, Except.bind] at h
  split at h
  · -- check_regions failed: only the before-check calls happened
    simp only [Pure.pure, Except.pure, Except.ok.injEq, Prod.mk.injEq] at h
    obtain ⟨h1, h2⟩ := h
    subst h2
    intro call hc
    simp only [List.mem_map] at hc
    rcases hc with ⟨c, ⟨cb, hmem, rfl⟩, hceq⟩
    have hcall : runCallback cb "EntitySelector" none view = call := by
      cases hceq; rfl
    subst hcall
    exact ⟨runCallback_argClsName cb "EntitySelector" none view,
           runCallback_argSelector cb "EntitySelector" none view⟩
  · split at h
    · exact absurd h (by simp)
    · split at h
      · exact absurd h (by simp)
      · rename_i p ac ha
        simp only [Pure.pure, Except.pure, Except.ok.injEq, Prod.mk.injEq] at h
        obtain ⟨h1, h2⟩ := h
        subst h2
        intro call hc
        simp only [List.mem_append, List.mem_map] at hc
        rcases hc with (⟨c, ⟨cb, hmem, rfl⟩, hceq⟩ | hloop) | ⟨x, hxmem, hxeq⟩
        · have hcall : runCallback cb "EntitySelector" none view = call := by
            cases hceq; rfl
          subst hcall
          exact ⟨runCallback_argClsName cb "EntitySelector" none view,
                 runCallback_argSelector cb "EntitySelector" none view⟩
        · have := (resolutionLoop_events _ view _ _ hloop).1
          simp [Event.isBefore] at this
        · cases hxeq

theorem match_entity_before_args (st : ESState) (view : View) (st' : ESState)
    (evs : List Event) (h : match_entity st view = Except.ok (st', evs)) :
    ∀ call, Event.before call ∈ evs →
      call.argClsName = "EntitySelector" ∧ call.argSelector = none := by
  unfold match_entity at h
  split at h
  · simp only [Except.ok.injEq, Prod.mk.injEq] at h
    obtain ⟨h1, h2⟩ := h
    subst h2
    intro call hc
    simp at hc
  · split at h
    · simp only [Except.ok.injEq, Prod.mk.injEq] at h
      obtain ⟨h1, h2⟩ := h
      subst h2
      intro call hc
      simp at hc
    · split at h
      · split at h
        · exact absurd h (by simp)
        · simp only [Except.ok.injEq, Prod.mk.injEq] at h
          obtain ⟨h1, h2⟩ := h
          subst h2
          intro call hc
          simp at hc
        · exact core_before_args st view st' evs h
      · exact core_before_args st view st' evs h

end EntitySelector

/-! ### The claims -/

/-- Claim C5: for every view with an active selector whose
`compare_current_selection` returns `True` for the current selection,
`match_entity` returns immediately, leaves the per-view record (active
selector, cached possible-selector list, registry fingerprint) and all other
state unchanged, and invokes no pre- or post-resolution callback. -/
theorem c5_matching_selector_short_circuit (st : ESState) (view : View) (s : Selector)
    (hsel : EntitySelector.get_selector_for_view st view = some s)
    (hcmp : EntitySelector.compare_current_selection s view false = Except.ok true) :
    EntitySelector.match_entity st view = Except.ok (st, []) := by
  unfold EntitySelector.match_entity
  cases hb : st.possibleSelectors.isEmpty
  · cases hwb : view.is_widget
    · simp [hsel, hcmp]
    · simp [hwb]
  · simp

/-- Witness for C5 at a concrete state: view 18 has an active `W5Sel`
selector whose stored region contains the current selection. -/
theorem c5_witness :
    EntitySelector.get_selector_for_view w5St w5View = some w5Sel ∧
    EntitySelector.compare_current_selection w5Sel w5View false = Except.ok true ∧
    EntitySelector.match_entity w5St w5View = Except.ok (w5St, []) :=
  ⟨rfl, rfl, c5_matching_selector_short_circuit w5St w5View w5Sel rfl rfl⟩

/-- Claim C6: `ViewData.get_possible_selectors_for_view` returns the cached
list unchanged when both the stored primary scope and the stored registry
fingerprint equal the current ones, and otherwise recomputes the list as the
registered selectors with positive `check_scope_for_view` score and a true
`enable_for_view`, storing the new scope and fingerprint. -/
theorem c6_possible_selectors_cache (vd : ViewData) (ps : List SelectorClass) (view : View) :
    ViewData.get_possible_selectors_for_view vd ps view =
      if vd.scope = ViewData.scope_from_view view ∧
         vd.possible_selectors_hash = ViewData.get_possible_selectors_hash ps then
        (vd, vd.possible_selectors)
      else
        ({ vd with
             scope := ViewData.scope_from_view view,
             possible_selectors_hash := ViewData.get_possible_selectors_hash ps,
             possible_selectors := ps.filter (fun s =>
               decide (0 < EntitySelector.check_scope_for_view s view) &&
                 s.enable_for_view view) },
         ps.filter (fun s =>
           decide (0 < EntitySelector.check_scope_for_view s view) &&
             s.enable_for_view view)) := by
  simp only [ViewData.get_possible_selectors_for_view, ViewData.update_possible_selectors]
  by_cases h : vd.scope = ViewData.scope_from_view view ∧
      vd.possible_selectors_hash = ViewData.get_possible_selectors_hash ps
  · have h' : ¬(vd.scope ≠ ViewData.scope_from_view view ∨
        vd.possible_selectors_hash ≠ ViewData.get_possible_selectors_hash ps) := by
      push_neg
      exact h
    rw [if_neg h', if_pos h]
  · have h' : vd.scope ≠ ViewData.scope_from_view view ∨
        vd.possible_selectors_hash ≠ ViewData.get_possible_selectors_hash ps := by
      by_contra hc
      push_neg at hc
      exact h hc
    rw [if_pos h', if_neg h]

/-- Claim C7: `get_selector_for_view` returns `None` for a view whose id has
no record (records are created only by `update_selector_for_view`); right
after `update_selector_for_view(view, s)`, `get_selector_for_view(view)`
returns `s`, whether the record existed (only its `selector` field changes)
or is freshly created. -/
theorem c7_update_get_selector_roundtrip (st : ESState) (view : View)
    (s : Option Selector) :
    (alookup st.viewSelectors view.id = none →
       EntitySelector.get_selector_for_view st view = none) ∧
    EntitySelector.get_selector_for_view
        (EntitySelector.update_selector_for_view st view s) view = s ∧
    alookup (EntitySelector.update_selector_for_view st view s).viewSelectors view.id =
      some (match alookup st.viewSelectors view.id with
            | some vd => { vd with selector := s }
            | none => ViewData.init view s st.possibleSelectors) := by
  refine ⟨?_, EntitySelector.get_selector_update st view s, ?_⟩
  · intro h
    unfold EntitySelector.get_selector_for_view
    rw [h]
  · unfold EntitySelector.update_selector_for_view
    cases halo : alookup st.viewSelectors view.id <;> simp [alookup_aset_self]

/-- Witness for C7: on the module-load state no record exists, and after
assigning a selector for view 19 it is read back. -/
theorem c7_witness :
    alookup initState.viewSelectors w7View.id = none ∧
    EntitySelector.get_selector_for_view initState w7View = none ∧
    EntitySelector.get_selector_for_view
        (EntitySelector.update_selector_for_view initState w7View (some w7Sel)) w7View =
      some w7Sel :=
  ⟨rfl, (c7_update_get_selector_roundtrip initState w7View (some w7Sel)).1 rfl,
   (c7_update_get_selector_roundtrip initState w7View (some w7Sel)).2.1⟩

/-- Claim C8: the callback runners catch an exception raised by any callback
(the invocation record marks it as raised, i.e. logged), still invoke every
callback of the chain in order, and never propagate an exception to their
caller. -/
theorem c8_callbacks_isolated (st : ESState) (view : View) :
    (∃ bc, EntitySelector.run_on_before_check_callbacks st view = Except.ok bc ∧
       bc.map CbCall.cb = st.onBeforeCheckCallbacks.map Callback.cbId) ∧
    (∃ ac, EntitySelector.run_on_after_check_callbacks st view = Except.ok ac ∧
       ac.map CbCall.cb = st.onAfterCheckCallbacks.map Callback.cbId) ∧
    (∀ (c : Callback) (n : String) (so : Option Selector),
       (EntitySelector.runCallback c n so view).raised = true ↔
         ∃ e, c.run n so view = Except.error e) :=
  ⟨EntitySelector.run_on_before_ok st view, EntitySelector.run_on_after_ok st view,
   fun c n so => EntitySelector.runCallback_raised_iff c n so view⟩

/-- Claim C9: with no selection, `check_scope_for_view` still returns a score
(the `ValueError` from `max([])` is caught and position 0 is scored), while
`check_scope_for_selection` with `check_all_regions = False` raises an
uncaught `IndexError`; with at least one selection,
`sorted_selectors_for_selection` (the scoring step of `match_entity`'s
resolution loop) raises nothing. -/
theorem c9_empty_selection_safety (st : ESState) (cls : SelectorClass) (view : View) :
    (view.sel = [] →
      EntitySelector.check_scope_for_view cls view =
        view.score_selector 0 cls.scope_view_enabler) ∧
    (view.sel = [] →
      EntitySelector.check_scope_for_selection cls view false =
        Except.error PyErr.indexError) ∧
    (view.sel ≠ [] →
      ∃ out, EntitySelector.sorted_selectors_for_selection st view = Except.ok out) := by
  refine ⟨?_, ?_, ?_⟩
  · intro h
    unfold EntitySelector.check_scope_for_view
    rw [h]
  · intro h
    unfold EntitySelector.check_scope_for_selection
    rw [h]
    rfl
  · intro h
    cases hv : view.sel with
    | nil => exact absurd hv h
    | cons r rs => exact ⟨_, EntitySelector.sorted_selectors_ok st view r rs hv⟩

/-- Witness for C9: a view with no selection (scored at position 0, selection
check raises) and one with a selection (scoring step returns normally). -/
theorem c9_witness :
    EntitySelector.check_scope_for_view demoCls w9ViewNoSel =
      w9ViewNoSel.score_selector 0 demoCls.scope_view_enabler ∧
    EntitySelector.check_scope_for_selection demoCls w9ViewNoSel false =
      Except.error PyErr.indexError ∧
    (∃ out, EntitySelector.sorted_selectors_for_selection initState w9View = Except.ok out) :=
  ⟨(c9_empty_selection_safety initState demoCls w9ViewNoSel).1 rfl,
   (c9_empty_selection_safety initState demoCls w9ViewNoSel).2.1 rfl,
   (c9_empty_selection_safety initState demoCls w9View).2.2 (by simp [w9View])⟩

/-- Claim C3: for a view with at least one selection,
`sorted_selectors_for_selection` returns exactly the classes of the view's
possible-selector list whose selection-scope score at the first selection is
strictly positive, in descending order of that score. -/
theorem c3_sorted_selectors_spec (st : ESState) (view : View) (r : Region)
    (rs : List Region) (hsl : view.sel = r :: rs) :
    ∃ out : List SelectorClass,
      EntitySelector.sorted_selectors_for_selection st view =
        Except.ok ((EntitySelector.get_possible_selectors_for_view st view).1, out) ∧
      List.Perm out
        ((EntitySelector.get_possible_selectors_for_view st view).2.filter
          (fun c => decide (0 < scoreAtFirst c view))) ∧
      out.Pairwise (fun c d => scoreAtFirst d view ≤ scoreAtFirst c view) := by
  refine ⟨_, EntitySelector.sorted_selectors_ok st view r rs hsl, ?_, ?_⟩
  · have hperm :=
      (sortDesc_perm (scoredCandidates view
        (EntitySelector.get_possible_selectors_for_view st view).2)).map Prod.snd
    rw [scoredCandidates_map_snd] at hperm
    exact hperm
  · have hpw := sortDesc_pairwise (scoredCandidates view
      (EntitySelector.get_possible_selectors_for_view st view).2)
    have hmem : ∀ p ∈ sortDesc (scoredCandidates view
        (EntitySelector.get_possible_selectors_for_view st view).2),
        p.1 = scoreAtFirst p.2 view := by
      intro p hp
      exact scoredCandidates_mem view _ p ((sortDesc_perm _).mem_iff.mp hp)
    rw [List.pairwise_map]
    exact hpw.imp_of_mem (fun {a b} ha hb hab => by
      rw [hmem a ha, hmem b hb] at hab
      exact hab)

/-- Witness for C3: view 15 has two applicable selectors scoring 1 and 2; the
sorted list exists, is a permutation of the positive-score filter, and is
score-descending. -/
theorem c3_witness :
    w3View.sel = [{ a := 0, b := 1 }] ∧
    (∃ out : List SelectorClass,
      EntitySelector.sorted_selectors_for_selection w3St w3View =
        Except.ok ((EntitySelector.get_possible_selectors_for_view w3St w3View).1, out) ∧
      List.Perm out
        ((EntitySelector.get_possible_selectors_for_view w3St w3View).2.filter
          (fun c => decide (0 < scoreAtFirst c w3View))) ∧
      out.Pairwise (fun c d => scoreAtFirst d w3View ≤ scoreAtFirst c w3View)) :=
  ⟨rfl, c3_sorted_selectors_spec w3St w3View { a := 0, b := 1 } [] rfl⟩

/-- Claim C4: in the resolution loop of `match_entity`, the candidates coming
from `sorted_selectors_for_selection` stand in descending score order, and
exactly the first class whose `enable_for_selection` is truthy is
instantiated and activated (the view's selector becomes an instance of that
class); no class after it is tried. -/
theorem c4_first_truthy_activates (st st' : ESState) (view : View)
    (cands pre post : List SelectorClass) (c : SelectorClass) (kw : Kwargs)
    (hs : EntitySelector.sorted_selectors_for_selection st view = Except.ok (st', cands))
    (hsplit : cands = pre ++ c :: post)
    (hpre : ∀ d ∈ pre, d.enable_for_selection view = none)
    (hc : c.enable_for_selection view = some kw) :
    EntitySelector.resolutionLoop st' view cands =
      (EntitySelector.update_selector_for_view st' view
         (some { cls := c, regions := view.sel }),
       pre.map (fun d => Event.tried d.name) ++
         [Event.tried c.name, Event.activated c.name]) ∧
    cands.Pairwise (fun a b => scoreAtFirst b view ≤ scoreAtFirst a view) := by
  constructor
  · rw [hsplit]
    exact EntitySelector.resolutionLoop_first_truthy st' view pre post c kw hpre hc
  · cases hv : view.sel with
    | nil =>
      exfalso
      simp only [EntitySelector.sorted_selectors_for_selection] at hs
      cases hp : (EntitySelector.get_possible_selectors_for_view st view).2 with
      | nil =>
        rw [hp] at hs
        simp only [EntitySelector.collectScored, Bind.bind, Except.bind,
          Pure.pure, Except.pure, Except.ok.injEq, Prod.mk.injEq] at hs
        have hcands : cands = [] := by
          rw [← hs.2]
          rfl
        rw [hsplit] at hcands
        simp at hcands
      | cons a l =>
        rw [hp] at hs
        simp only [EntitySelector.collectScored, EntitySelector.check_scope_for_selection,
          hv, Bind.bind, Except.bind] at hs
        cases hs
    | cons r rs =>
      rw [EntitySelector.sorted_selectors_ok st view r rs hv] at hs
      simp only [Except.ok.injEq, Prod.mk.injEq] at hs
      obtain ⟨h1, h2⟩ := hs
      subst h2
      have hpw := sortDesc_pairwise (scoredCandidates view
        (EntitySelector.get_possible_selectors_for_view st view).2)
      have hmem : ∀ p ∈ sortDesc (scoredCandidates view
          (EntitySelector.get_possible_selectors_for_view st view).2),
          p.1 = scoreAtFirst p.2 view := by
        intro p hp
        exact scoredCandidates_mem view _ p ((sortDesc_perm _).mem_iff.mp hp)
      rw [List.pairwise_map]
      exact hpw.imp_of_mem (fun {a b} ha hb hab => by
        rw [hmem a ha, hmem b hb] at hab
        exact hab)

/-- Witness for C4: view 16 sorts its two candidates as
`[W4High, W4Low]`; `W4High.enable_for_selection` is falsy, `W4Low`'s is
truthy, so the loop tries both, activates `W4Low`, and stops. -/
theorem c4_witness :
    EntitySelector.sorted_selectors_for_selection w4St w4View =
      Except.ok (w4St, [w4High, w4Low]) ∧
    w4High.enable_for_selection w4View = none ∧
    w4Low.enable_for_selection w4View = some [] ∧
    EntitySelector.resolutionLoop w4St w4View [w4High, w4Low] =
      (EntitySelector.update_selector_for_view w4St w4View
         (some { cls := w4Low, regions := w4View.sel }),
       [Event.tried "W4High", Event.tried "W4Low", Event.activated "W4Low"]) :=
  ⟨rfl, rfl, rfl,
   (c4_first_truthy_activates w4St w4St w4View [w4High, w4Low] [w4High] [] w4Low []
     rfl rfl
     (by intro d hd; simp only [List.mem_singleton] at hd; subst hd; rfl)
     rfl).1⟩

/-- Claim C1 (amended): registering a callback without `propagate` from a
subclass that owns no callback-list attribute appends it to the shared
`EntitySelector` list (the attribute is inherited, so `hasattr` is true and
`append` mutates the inherited list); when `match_entity` passes its early
exits for a view with at least one selection, every registered before-check
callback is invoked before the resolution loop, and, provided `check_regions`
returns `True`, every registered after-check callback is invoked after it. -/
theorem c1_callback_chain_amended (st : ESState) (view : View) (r : Region)
    (rs : List Region)
    (hps : st.possibleSelectors ≠ []) (hw : view.is_widget = false)
    (hsel : no_still_matching_selector st view)
    (hsl : view.sel = r :: rs) (hcr : EntitySelector.check_regions view = true) :
    (∀ (l : List Callback) (cb : Callback),
       (EntitySelector.add_on_before_check_callback l none false cb false).1 = l ++ [cb]) ∧
    (∀ (l : List Callback) (cb : Callback),
       (EntitySelector.add_on_after_check_callback l none false cb false).1 = l ++ [cb]) ∧
    ∃ (st3 : ESState) (bc ac : List CbCall) (loopEvs : List Event),
      EntitySelector.match_entity st view =
        Except.ok (st3, bc.map Event.before ++ loopEvs ++ ac.map Event.after) ∧
      bc.map CbCall.cb = st.onBeforeCheckCallbacks.map Callback.cbId ∧
      ac.map CbCall.cb = st.onAfterCheckCallbacks.map Callback.cbId ∧
      (∀ e ∈ loopEvs, e.isBefore = false ∧ e.isAfter = false) := by
  refine ⟨fun l cb => rfl, fun l cb => rfl, ?_⟩
  rw [EntitySelector.match_entity_proceeds st view hps hw hsel]
  obtain ⟨st3, loopEvs, ac, heq, hacids, hevs⟩ :=
    EntitySelector.core_success st view r rs hsl hcr
  refine ⟨st3,
    st.onBeforeCheckCallbacks.map
      (fun c => EntitySelector.runCallback c "EntitySelector" none view),
    ac, loopEvs, heq, ?_, hacids, hevs⟩
  simp [EntitySelector.runCallback_cb]

/-- Counterexample to C1 as stated: state 12 passes the three named early
exits (non-empty registry, non-widget view, no active selector) and has one
registered after-check callback, yet because `check_regions` is `False` the
run ends with only the before-check call in its trace: no after-check
callback is invoked. -/
theorem c1_counterexample :
    c1cexSt.possibleSelectors.map SelectorClass.name = ["CexSel"] ∧
    c1cexView.is_widget = false ∧
    EntitySelector.get_selector_for_view c1cexSt c1cexView = none ∧
    c1cexSt.onAfterCheckCallbacks.map Callback.cbId = ["c1ac"] ∧
    EntitySelector.check_regions c1cexView = false ∧
    (EntitySelector.match_entity c1cexSt c1cexView).map (fun p => p.2.map Event.describe) =
      Except.ok ["before:c1bc:EntitySelector:none"] :=
  ⟨rfl, rfl, rfl, rfl, rfl, rfl⟩

/-- Witness for C1 (amended) at state 11: one before- and one after-check
callback, one selector class, `check_regions` true. -/
theorem c1_witness :
    w1St.possibleSelectors ≠ [] ∧
    w1View.is_widget = false ∧
    no_still_matching_selector w1St w1View ∧
    w1View.sel = [{ a := 0, b := 1 }] ∧
    EntitySelector.check_regions w1View = true ∧
    ((∀ (l : List Callback) (cb : Callback),
       (EntitySelector.add_on_before_check_callback l none false cb false).1 = l ++ [cb]) ∧
    (∀ (l : List Callback) (cb : Callback),
       (EntitySelector.add_on_after_check_callback l none false cb false).1 = l ++ [cb]) ∧
    ∃ (st3 : ESState) (bc ac : List CbCall) (loopEvs : List Event),
      EntitySelector.match_entity w1St w1View =
        Except.ok (st3, bc.map Event.before ++ loopEvs ++ ac.map Event.after) ∧
      bc.map CbCall.cb = w1St.onBeforeCheckCallbacks.map Callback.cbId ∧
      ac.map CbCall.cb = w1St.onAfterCheckCallbacks.map Callback.cbId ∧
      (∀ e ∈ loopEvs, e.isBefore = false ∧ e.isAfter = false)) :=
  ⟨by simp [w1St], rfl, trivial, rfl, rfl,
   c1_callback_chain_amended w1St w1View { a := 0, b := 1 } []
     (by simp [w1St]) rfl trivial rfl rfl⟩

/-- Claim C2 (amended): the callback runners pass the current active
selector's class and instance (or `EntitySelector` and `None` when no
selector is active) at the time they run; but `match_entity` clears the
view's selector before running the pre-resolution callbacks, so within
`match_entity` every pre-resolution callback receives `cls = EntitySelector`
and `selector = None`, even when a selector was active at entry. -/
theorem c2_callback_arguments_amended (st : ESState) (view : View) (st' : ESState)
    (evs : List Event)
    (hrun : EntitySelector.match_entity st view = Except.ok (st', evs)) :
    (∀ call, Event.before call ∈ evs →
       call.argClsName = "EntitySelector" ∧ call.argSelector = none) ∧
    (EntitySelector.get_selector_for_view st view = none →
       EntitySelector.run_on_before_check_callbacks st view =
         Except.ok (st.onBeforeCheckCallbacks.map
           (fun c => EntitySelector.runCallback c "EntitySelector" none view)) ∧
       EntitySelector.run_on_after_check_callbacks st view =
         Except.ok (st.onAfterCheckCallbacks.map
           (fun c => EntitySelector.runCallback c "EntitySelector" none view))) ∧
    (∀ s, EntitySelector.get_selector_for_view st view = some s →
       EntitySelector.run_on_before_check_callbacks st view =
         Except.ok (st.onBeforeCheckCallbacks.map
           (fun c => EntitySelector.runCallback c s.cls.name (some s) view)) ∧
       EntitySelector.run_on_after_check_callbacks st view =
         Except.ok (st.onAfterCheckCallbacks.map
           (fun c => EntitySelector.runCallback c s.cls.name (some s) view))) :=
  ⟨EntitySelector.match_entity_before_args st view st' evs hrun,
   fun h => ⟨EntitySelector.run_on_before_of_none st view h,
             EntitySelector.run_on_after_of_none st view h⟩,
   fun s h => ⟨EntitySelector.run_on_before_of_some st view s h,
               EntitySelector.run_on_after_of_some st view s h⟩⟩

/-- Counterexample to C2 as stated: view 14 enters `match_entity` with an
active `DemoSelector` instance whose `compare_current_selection` is `False`,
yet the one pre-resolution callback is invoked with `cls = EntitySelector`
and `selector = None`, not with the entry selector's class and instance. -/
theorem c2_counterexample :
    EntitySelector.get_selector_for_view c2cexSt c2cexView = some c2cexSel ∧
    c2cexSel.cls.name = "DemoSelector" ∧
    EntitySelector.compare_current_selection c2cexSel c2cexView false = Except.ok false ∧
    (EntitySelector.match_entity c2cexSt c2cexView).map (fun p => p.2.map Event.describe) =
      Except.ok ["before:c2cb:EntitySelector:none"] ∧
    "EntitySelector" ≠ "DemoSelector" :=
  ⟨rfl, rfl, rfl, rfl, by decide⟩

/-- Witness for C2 (amended) at state 13: `match_entity` completes and its
one before-check call carries `EntitySelector` and `None`. -/
theorem c2_witness :
    EntitySelector.match_entity w2St w2View = Except.ok (w2StOut, w2Evs) ∧
    w2Call.argClsName = "EntitySelector" ∧ w2Call.argSelector = none :=
  ⟨rfl,
   (c2_callback_arguments_amended w2St w2View w2StOut w2Evs rfl).1 w2Call
     (List.Mem.head _)⟩

/-- Claim C10: after `Highlight.highlight()`, when `get_highlight_regions()`
is non-empty the view's entry in `Highlight.Highlighters` is this instance
and its `highlight_regions` equal exactly the returned list; otherwise the
entry becomes `None` and the highlight regions and status key are erased; so
the view's assigned highlighter is this instance exactly when it has at least
one highlight region. -/
theorem c10_highlight_assignment (self : Highlight.HighlightInst)
    (hls : Highlight.Highlighters) :
    (self.get_highlight_regions ≠ [] →
       (Highlight.highlight self hls).inst =
           { self with highlight_regions := self.get_highlight_regions } ∧
       alookup (Highlight.highlight self hls).highlighters self.view.id =
         some (some (Highlight.highlight self hls).inst) ∧
       (Highlight.highlight self hls).inst.highlight_regions =
         self.get_highlight_regions) ∧
    (self.get_highlight_regions = [] →
       (Highlight.highlight self hls).inst = self ∧
       alookup (Highlight.highlight self hls).highlighters self.view.id = some none ∧
       ViewEffect.eraseRegions "entity_select_highlight" ∈
         (Highlight.highlight self hls).effects ∧
       ViewEffect.eraseStatus Highlight.STATUS_KEY ∈
         (Highlight.highlight self hls).effects) ∧
    ((alookup (Highlight.highlight self hls).highlighters self.view.id =
        some (some (Highlight.highlight self hls).inst) ∧
      (Highlight.highlight self hls).inst.highlight_regions ≠ []) ↔
      self.get_highlight_regions ≠ []) := by
  by_cases h : self.get_highlight_regions = []
  · have hisEmpty : self.get_highlight_regions.isEmpty = true := by simp [h]
    refine ⟨fun hne => absurd h hne, fun _ => ?_, ?_⟩
    · simp [Highlight.highlight, hisEmpty, Highlight.remove_highlighter_from_view,
        Highlight.erase_highlight_regions, alookup_aset_self]
    · simp [Highlight.highlight, hisEmpty, Highlight.remove_highlighter_from_view,
        Highlight.erase_highlight_regions, alookup_aset_self, h]
  · have hisEmpty : self.get_highlight_regions.isEmpty = false := by
      cases hl : self.get_highlight_regions with
      | nil => exact absurd hl h
      | cons a l => rfl
    refine ⟨fun _ => ?_, fun heq => absurd heq h, ?_⟩
    · simp [Highlight.highlight, hisEmpty, Highlight.assign_highlighter_to_view,
        alookup_aset_self]
    · simp [Highlight.highlight, hisEmpty, Highlight.assign_highlighter_to_view,
        alookup_aset_self, h]

/-- Witness for C10: a highlighter finding one region is assigned to view 17
with exactly that region stored; one finding nothing leaves `None` assigned. -/
theorem c10_witness :
    w10A.get_highlight_regions ≠ [] ∧
    alookup (Highlight.highlight w10A []).highlighters w10A.view.id =
      some (some (Highlight.highlight w10A []).inst) ∧
    w10B.get_highlight_regions = [] ∧
    alookup (Highlight.highlight w10B []).highlighters w10B.view.id = some none :=
  ⟨by simp [w10A], ((c10_highlight_assignment w10A []).1 (by simp [w10A])).2.1,
   rfl, ((c10_highlight_assignment w10B []).2.1 rfl).2.1⟩
